import Mathlib

/-!
Verification of the `arb-node` startup orchestrator
(`packages/arb-rpc-node/cmd/arb-node/arb-node.go`).

The Go function `startup` is embedded shallowly as a pure Lean function.
External collaborators (config parsing, monitor, keystore, txdb, batcher
construction, lockout wrap, web3 server, and the three fatal-signal
sources watched by the terminal `select`) are modelled by an environment
`Env` that fixes the outcome of every external call; `startup` then
deterministically produces the list of observable events (prints, logs,
subsystem starts, retry attempts, deferred cleanup actions) together with
its return value.  The two unbounded retry loops are embedded with fuel:
running out of fuel yields the distinguished outcome `Outcome.diverge`
(the real loop simply has not returned yet), while every genuine exit of
the Go function is an `Outcome.ret`.
-/

namespace ArbNode

/-- Observable events of one execution of `startup`, in program order.
`wait5` stands for the `time.After(5 * time.Second)` backoff, the
`*Close`/`logClean` events are the deferred release actions (`db.Close`,
`mon.Close`, and the deferred "Cleanly shutting down node" log), and
`downcastPanic` marks the (unreachable) failure of the
`batch.(*batcher.SequencerBatcher)` type assertion. -/
inductive Ev where
  | printUsage
  | printParseErr (s : String)
  | printMsg (s : String)
  | pprofStart
  | logLaunch
  | monOpen
  | healthStart
  | healthEvent (v : String)
  | feedWarn
  | feedConnect (url : String)
  | inboxAttempt (i : Nat)
  | inboxWarn
  | wait5
  | nodeStoreMetrics
  | dbOpen
  | catchUpWait
  | batcherAttempt (i : Nat)
  | lockoutAttempt (i : Nat)
  | downcastPanic
  | batcherWarn
  | batchStart
  | systemMetrics
  | staticMetrics
  | serverLaunch
  | dbClose
  | monClose
  | logClean
  deriving DecidableEq, Repr

/-- Result of one run of a (fuelled) retry loop. -/
inductive RetryResult (α : Type) where
  | ok (v : α)
  | cancelled
  | fuelOut
  deriving DecidableEq, Repr

/-- Which of the three sources watched by the terminal `select` fires
first: the txdb error channel, the merged lockout/RPC-server error
channel (`errChan`), or the cancellation channel. -/
inductive FirstSignal where
  | txdbFatal (e : String)
  | mergedFatal (e : String)
  | cancel
  deriving DecidableEq, Repr

/-- Return behaviour of `startup`: `ret e` models `return err` for
`e = some msg` and `return nil` for `e = none`; `diverge` means the run
is still inside an unbounded retry loop when the fuel ends. -/
inductive Outcome where
  | ret (e : Option String)
  | diverge
  deriving DecidableEq, Repr

/-- The configuration fields of `configuration.NodeConfig` that `startup`
reads (flattened; the lockout sub-config is `lockoutRedis` /
`lockoutSelfRPCURL`). -/
structure NodeConfig where
  persistentGlobalConfig : String
  persistentChain : String
  l1URL : String
  rollupAddress : String
  bridgeUtilsAddress : String
  nodeChainID : Nat
  machineFilename : String
  nodeType : String
  forwarderTarget : String
  aggregatorInboxAddress : String
  aggregatorStateful : Bool
  delayedMessagesTargetDelay : Int
  createBatchBlockInterval : Int
  lockoutRedis : String
  lockoutSelfRPCURL : String
  waitToCatchUp : Bool
  feedURLs : List String
  pprofEnable : Bool
  deriving DecidableEq, Repr

/-- Outcomes of all external calls performed by one run of `startup`.
The per-attempt functions (`inboxErr`, `batcherErr`, `lockoutErr`) give
the error returned by the i-th invocation inside the retry loops
(`none` = success), and `inboxCancelAt i` / `batcherCancelAt i` say
whether `ctx.Done()` is ready during the backoff wait that follows a
failed attempt `i`.  `fuel` bounds both retry loops. -/
structure Env where
  parseErr : Option String
  parseLogFlagsErr : Option String
  monitorErr : Option String
  keystoreErr : Option String
  balanceErr : Option String
  inboxErr : Nat → Option String
  inboxCancelAt : Nat → Bool
  txdbErr : Option String
  batcherErr : Nat → Option String
  lockoutErr : Nat → Option String
  batcherCancelAt : Nat → Bool
  web3Err : Option String
  firstSignal : FirstSignal
  fuel : Nat

/-- Translation of `strings.Contains(s, "help requested")`. -/
def hasHelpRequested (s : String) : Bool :=
  (s.splitOn "help requested").length ≠ 1

/-- The configuration part of the early guard at the top of `startup`
(`arb-node.go` lines 93-96): empty global config path, empty L1 URL,
empty rollup address, empty bridge-utils address, a lockout redis
address on a non-sequencer node, or exactly one of the two lockout
fields set. -/
def configGuardFails (c : NodeConfig) : Bool :=
  decide (c.persistentGlobalConfig = "") || decide (c.l1URL = "") ||
  decide (c.rollupAddress = "") || decide (c.bridgeUtilsAddress = "") ||
  (!decide (c.nodeType = "sequencer") && !decide (c.lockoutRedis = "")) ||
  (decide (c.lockoutRedis = "") != decide (c.lockoutSelfRPCURL = ""))

/-- The full early guard, including `err != nil` from `ParseNode`. -/
def phase1Fails (env : Env) (c : NodeConfig) : Bool :=
  env.parseErr.isSome || configGuardFails c

/-- Events printed for the `ParseNode` error inside the early-guard
branch: the error text is printed unless it contains "help requested". -/
def parseErrTrace (env : Env) : List Ev :=
  match env.parseErr with
  | some e => if hasHelpRequested e then [] else [Ev.printParseErr e]
  | none => []

/-- The messages printed by the second validation phase
(`arb-node.go` lines 105-143), in program order.  `badConfig` is true
in the source exactly when this list is non-empty. -/
def phase2Msgs (c : NodeConfig) : List String :=
  (if c.bridgeUtilsAddress = "" then ["Missing --bridge-utils-address"] else []) ++
  (if c.persistentChain = "" then ["Missing --persistent.chain"] else []) ++
  (if c.rollupAddress = "" then ["Missing --rollup.address"] else []) ++
  (if c.nodeChainID = 0 then ["Missing --rollup.chain-id"] else []) ++
  (if c.machineFilename = "" then ["Missing --rollup.machine.filename"] else []) ++
  (if c.nodeType = "forwarder" then
    (if c.forwarderTarget = "" then ["Forwarder node needs --node.forwarder.target"] else [])
  else if c.nodeType = "aggregator" then
    (if c.aggregatorInboxAddress = "" then ["Aggregator node needs --node.aggregator.inbox-address"] else [])
  else if c.nodeType = "sequencer" then []
  else ["Unrecognized node type " ++ c.nodeType])

/-- The single mutation `startup` applies to the parsed config:
`config.WaitToCatchUp = true` in the sequencer branch of the second
validation phase ("Sequencer always waits"). -/
def resolveConfig (c : NodeConfig) : NodeConfig :=
  if c.nodeType = "sequencer" then { c with waitToCatchUp := true } else c

/-- The tagged union `rpc.BatcherMode` (lines 222-260). -/
inductive BatcherMode where
  | forwarderBatcherMode (nodeURL : String)
  | sequencerBatcherMode (delayedMessagesTargetDelay createBatchBlockInterval : Int)
  | statefulBatcherMode (inboxAddress : String)
  | statelessBatcherMode (inboxAddress : String)
  deriving DecidableEq, Repr

/-- The mode-resolution logic of lines 223-259: forwarder gets
`ForwarderBatcherMode`, sequencer gets `SequencerBatcherMode` with the
two block-interval parameters copied from configuration, and any other
node type gets the stateful or stateless aggregator mode according to
`config.Node.Aggregator.Stateful`. -/
def resolveBatcherMode (c : NodeConfig) : BatcherMode :=
  if c.nodeType = "forwarder" then .forwarderBatcherMode c.forwarderTarget
  else if c.nodeType = "sequencer" then
    .sequencerBatcherMode c.delayedMessagesTargetDelay c.createBatchBlockInterval
  else if c.aggregatorStateful then .statefulBatcherMode c.aggregatorInboxAddress
  else .statelessBatcherMode c.aggregatorInboxAddress

/-- Dynamic type of the `batcher.TransactionBatcher` value held in
`batch`: either a `*batcher.SequencerBatcher`, some other batcher, or
the lockout-wrapped batcher produced by `SetupLockout`. -/
inductive Batcher where
  | sequencerBatcher
  | plainBatcher
  | lockoutBatcher
  deriving DecidableEq, Repr

/-- Modelled from the spec: `rpc.SetupBatcher` is not under src/ (only
its call site is); per spec sections 4.3/4.4 the batcher constructed for
the sequencer mode descriptor is a sequencer batcher, and the other mode
descriptors yield non-sequencer batchers. -/
def setupBatcherValue : BatcherMode → Batcher
  | .sequencerBatcherMode _ _ => .sequencerBatcher
  | _ => .plainBatcher

/-- The Go type assertion `batch.(*batcher.SequencerBatcher)`:
succeeds exactly on a sequencer batcher, panics otherwise. -/
def asSequencerBatcher : Batcher → Option Batcher
  | .sequencerBatcher => some .sequencerBatcher
  | _ => none

/-- One iteration body of the `StartInboxReader` retry loop
(line 204): the attempt itself, succeeding or failing as `env` says. -/
def inboxCtor (env : Env) (i : Nat) : List Ev × Except String Unit :=
  ([Ev.inboxAttempt i],
    match env.inboxErr i with
    | some e => Except.error e
    | none => Except.ok ())

/-- One iteration body of the batcher-construction retry loop
(lines 277-291): `SetupBatcher`, then—only if it succeeded and a lockout
redis address is configured—the type assertion and `SetupLockout`,
atomically within the same attempt. -/
def batcherCtor (env : Env) (c : NodeConfig) (i : Nat) : List Ev × Except String Batcher :=
  match env.batcherErr i with
  | some e => ([Ev.batcherAttempt i], Except.error e)
  | none =>
    if c.lockoutRedis = "" then
      ([Ev.batcherAttempt i], Except.ok (setupBatcherValue (resolveBatcherMode c)))
    else
      match asSequencerBatcher (setupBatcherValue (resolveBatcherMode c)) with
      | none => ([Ev.batcherAttempt i, Ev.downcastPanic],
          Except.error "panic: batch is not a SequencerBatcher")
      | some _ =>
        match env.lockoutErr i with
        | some e => ([Ev.batcherAttempt i, Ev.lockoutAttempt i], Except.error e)
        | none => ([Ev.batcherAttempt i, Ev.lockoutAttempt i], Except.ok Batcher.lockoutBatcher)

/-- The retry-with-fixed-delay loop shared by both call sites
(lines 203-219 and 276-303): attempt the constructor; on success break;
on failure log a warning, then `select` between `ctx.Done()` (abort with
a cancellation error) and `time.After(5 * time.Second)` (retry). -/
def retryLoop (ctor : Nat → List Ev × Except String α) (warnEv : Ev)
    (cancelAt : Nat → Bool) : Nat → Nat → List Ev × RetryResult α
  | 0, _ => ([], RetryResult.fuelOut)
  | fuel + 1, i =>
    match (ctor i).2 with
    | Except.ok v => ((ctor i).1, RetryResult.ok v)
    | Except.error _ =>
      if cancelAt i then
        ((ctor i).1 ++ [warnEv], RetryResult.cancelled)
      else
        ((ctor i).1 ++ [warnEv, Ev.wait5] ++
           (retryLoop ctor warnEv cancelAt fuel (i + 1)).1,
         (retryLoop ctor warnEv cancelAt fuel (i + 1)).2)

/-- The event trace of a run of `retryLoop` that starts at attempt `j`,
fails `k` times, and succeeds at attempt `j + k`: each failed attempt is
followed by the warning and the 5-second wait. -/
def retryTraceUpTo (ctor : Nat → List Ev × Except String α) (warnEv : Ev) :
    Nat → Nat → List Ev
  | j, 0 => (ctor j).1
  | j, k + 1 => (ctor j).1 ++ [warnEv, Ev.wait5] ++ retryTraceUpTo ctor warnEv (j + 1) k

/-- The inbox-reader acquisition loop as run by `startup`. -/
def inboxLoop (env : Env) : List Ev × RetryResult Unit :=
  retryLoop (inboxCtor env) Ev.inboxWarn env.inboxCancelAt env.fuel 0

/-- The batcher-construction loop as run by `startup`. -/
def batcherLoop (env : Env) (c : NodeConfig) : List Ev × RetryResult Batcher :=
  retryLoop (batcherCtor env c) Ev.batcherWarn env.batcherCancelAt env.fuel 0

/-- The terminal three-way `select` (lines 320-327): return the error
received from `txDBErrChan` or `errChan`, or `nil` on cancellation. -/
def supervisorResult : FirstSignal → Option String
  | .txdbFatal e => some e
  | .mergedFatal e => some e
  | .cancel => none

/-- Events between `ParseLogFlags` and `NewMonitor`: the optional pprof
server launch and the "Launching arbitrum node" log. -/
def launchTrace (c : NodeConfig) : List Ev :=
  (if c.pprofEnable then [Ev.pprofStart] else []) ++ [Ev.logLaunch]

/-- The fixed, ordered set of health events (lines 181-189): five
config events, the forwarder-only primary target, then the L1 liveness
target. -/
def healthEvents (c : NodeConfig) : List Ev :=
  [Ev.healthStart,
   Ev.healthEvent "healthcheckMetrics",
   Ev.healthEvent "disablePrimaryCheck",
   Ev.healthEvent "disableOpenEthereumCheck",
   Ev.healthEvent "healthcheckRPC"] ++
  (if c.nodeType = "forwarder" then [Ev.healthEvent "primaryHealthcheckRPC"] else []) ++
  [Ev.healthEvent "openethereumHealthcheckRPC"]

/-- Feed subscription (lines 193-201): a warning when no feed URL is
configured, otherwise one background broadcast client per URL. -/
def feedEvents (c : NodeConfig) : List Ev :=
  if c.feedURLs = [] then [Ev.feedWarn] else c.feedURLs.map Ev.feedConnect

/-- Everything emitted between `NewMonitor` succeeding and the inbox
retry loop starting. -/
def preInboxTrace (c : NodeConfig) : List Ev :=
  launchTrace c ++ [Ev.monOpen] ++ healthEvents c ++ feedEvents c

/-- The keystore and balance-wait preconditions of the non-forwarder
branch (lines 227-242); a forwarder skips both.  Errors are wrapped as
in the source (`errors.Wrap`). -/
def keystoreAndBalance (env : Env) (c : NodeConfig) : Option String :=
  if c.nodeType = "forwarder" then none
  else
    match env.keystoreErr with
    | some e => some ("error running GetKeystore: " ++ e)
    | none =>
      match env.balanceErr with
      | some e => some ("error waiting for balance: " ++ e)
      | none => none

/-- The body of `startup` from line 149 on, after both validation phases
have passed, on the resolved config.  Deferred actions accumulate
LIFO: `db.Close`, then `mon.Close`, then the deferred "Cleanly shutting
down node" log, run on every return path that registered them. -/
def startupMain (env : Env) (c : NodeConfig) : List Ev × Outcome :=
  match env.parseLogFlagsErr with
  | some e => ([Ev.logClean], Outcome.ret (some e))
  | none =>
    match env.monitorErr with
    | some e => (launchTrace c ++ [Ev.logClean],
        Outcome.ret (some ("error opening monitor: " ++ e)))
    | none =>
      let t := preInboxTrace c ++ (inboxLoop env).1
      match (inboxLoop env).2 with
      | RetryResult.fuelOut => (t, Outcome.diverge)
      | RetryResult.cancelled =>
          (t ++ [Ev.monClose, Ev.logClean],
           Outcome.ret (some "ctx cancelled StartInboxReader retry loop"))
      | RetryResult.ok _ =>
        match keystoreAndBalance env c with
        | some e => (t ++ [Ev.monClose, Ev.logClean], Outcome.ret (some e))
        | none =>
          let t := t ++ [Ev.nodeStoreMetrics]
          match env.txdbErr with
          | some e => (t ++ [Ev.monClose, Ev.logClean],
              Outcome.ret (some ("error opening txdb: " ++ e)))
          | none =>
            let t := t ++ [Ev.dbOpen] ++
              (if c.waitToCatchUp then [Ev.catchUpWait] else []) ++ (batcherLoop env c).1
            match (batcherLoop env c).2 with
            | RetryResult.fuelOut => (t, Outcome.diverge)
            | RetryResult.cancelled =>
                (t ++ [Ev.dbClose, Ev.monClose, Ev.logClean],
                 Outcome.ret (some "ctx cancelled setup batcher"))
            | RetryResult.ok _ =>
              let t := t ++ [Ev.batchStart, Ev.systemMetrics, Ev.staticMetrics]
              match env.web3Err with
              | some e => (t ++ [Ev.dbClose, Ev.monClose, Ev.logClean],
                  Outcome.ret (some e))
              | none =>
                (t ++ [Ev.serverLaunch, Ev.dbClose, Ev.monClose, Ev.logClean],
                 Outcome.ret (supervisorResult env.firstSignal))

/-- The whole of `startup`: early guard (print usage, print the parse
error unless it is a help request, return nil), second validation phase
(print one message per violated rule, return nil), then the main body on
the resolved config. -/
def startup (env : Env) (c0 : NodeConfig) : List Ev × Outcome :=
  if phase1Fails env c0 = true then
    ([Ev.printUsage] ++ parseErrTrace env, Outcome.ret none)
  else if phase2Msgs c0 = [] then startupMain env (resolveConfig c0)
  else ((phase2Msgs c0).map Ev.printMsg, Outcome.ret none)

/-- Modelled from the spec: `configuration.ParseNode` is not under src/;
per spec sections 4.1 and 8 the catch-up flag is a forced side effect of
role selection and not user-settable, so a freshly parsed config carries
`waitToCatchUp = false`. -/
def parsedWaitToCatchUp : Bool := false

/-- Events that may appear before the inbox retry loop starts. -/
def preEvOK : Ev → Bool
  | .pprofStart | .logLaunch | .monOpen | .healthStart | .healthEvent _
  | .feedWarn | .feedConnect _ => true
  | _ => false

/-- Events that may appear in the inbox retry loop's trace. -/
def inboxEvOK : Ev → Bool
  | .inboxAttempt _ | .inboxWarn | .wait5 => true
  | _ => false

/-- Events that may appear in the batcher retry loop's trace. -/
def batcherEvOK : Ev → Bool
  | .batcherAttempt _ | .lockoutAttempt _ | .downcastPanic | .batcherWarn | .wait5 => true
  | _ => false

/-- Fixed single events of the post-validation main path. -/
def fixedEvOK : Ev → Bool
  | .logClean | .monClose | .dbClose | .nodeStoreMetrics | .dbOpen
  | .batchStart | .systemMetrics | .staticMetrics | .serverLaunch => true
  | _ => false

/-- Events that correspond to creating or starting a subsystem (as
opposed to printing, logging, or waiting). -/
def isSubsystemEv : Ev → Bool
  | .printUsage | .printParseErr _ | .printMsg _ | .logLaunch | .logClean
  | .inboxWarn | .batcherWarn | .feedWarn | .wait5 => false
  | _ => true

/-- Recognizer for inbox-reader attempt events. -/
def isInboxAttempt : Ev → Bool
  | .inboxAttempt _ => true
  | _ => false

/-- Recognizer for the retry warning event of the inbox loop. -/
def isInboxWarnEv : Ev → Bool
  | .inboxWarn => true
  | _ => false

/-- Recognizer for the 5-second backoff wait event. -/
def isWait5Ev : Ev → Bool
  | .wait5 => true
  | _ => false

/- Concrete fixtures used by witnesses and counterexamples. -/

/-- A forwarder configuration that passes both validation phases. -/
def fwdCfg : NodeConfig :=
  { persistentGlobalConfig := "conf.json"
  , persistentChain := "dbdir"
  , l1URL := "ws://l1:8546"
  , rollupAddress := "0xrollup"
  , bridgeUtilsAddress := "0xbridge"
  , nodeChainID := 42161
  , machineFilename := "machine.json"
  , nodeType := "forwarder"
  , forwarderTarget := "http://target:8547"
  , aggregatorInboxAddress := ""
  , aggregatorStateful := false
  , delayedMessagesTargetDelay := 0
  , createBatchBlockInterval := 0
  , lockoutRedis := ""
  , lockoutSelfRPCURL := ""
  , waitToCatchUp := false
  , feedURLs := []
  , pprofEnable := false }

/-- A sequencer configuration with the lockout pair set; passes both
validation phases. -/
def seqCfg : NodeConfig :=
  { fwdCfg with
      nodeType := "sequencer"
    , forwarderTarget := ""
    , delayedMessagesTargetDelay := 12
    , createBatchBlockInterval := 1
    , lockoutRedis := "redis:6379"
    , lockoutSelfRPCURL := "http://self:8547" }

/-- An environment in which every external call succeeds and the first
terminal signal is cancellation. -/
def goodEnv : Env :=
  { parseErr := none
  , parseLogFlagsErr := none
  , monitorErr := none
  , keystoreErr := none
  , balanceErr := none
  , inboxErr := fun _ => none
  , inboxCancelAt := fun _ => false
  , txdbErr := none
  , batcherErr := fun _ => none
  , lockoutErr := fun _ => none
  , batcherCancelAt := fun _ => false
  , web3Err := none
  , firstSignal := FirstSignal.cancel
  , fuel := 4 }

/-- A forwarder configuration with a lockout redis address set: violates
the sequencer-only lockout rule. -/
def c7Cfg : NodeConfig :=
  { fwdCfg with lockoutRedis := "redis:6379", lockoutSelfRPCURL := "http://self:8547" }

/-- A configuration that passes the early guard but violates the
chain-id rule of the second validation phase. -/
def c6Bad : NodeConfig := { fwdCfg with nodeChainID := 0 }

/-- A configuration violating both the L1-URL rule (first phase) and the
chain-id rule (second phase). -/
def c1Bad : NodeConfig := { fwdCfg with l1URL := "", nodeChainID := 0 }

/-- A configuration passing the early guard but violating two
second-phase rules at once. -/
def c1Wit : NodeConfig := { fwdCfg with nodeChainID := 0, machineFilename := "" }

/-- An environment whose inbox-reader constructor always fails and whose
cancellation signal is ready during every backoff wait. -/
def cancelEnv : Env :=
  { goodEnv with
      inboxErr := fun _ => some "dial tcp: connection refused"
    , inboxCancelAt := fun _ => true }

/-- An environment whose inbox-reader constructor fails twice and then
succeeds. -/
def retryEnv : Env :=
  { goodEnv with
      inboxErr := fun i => if i < 2 then some "dial tcp: connection refused" else none }

/-- An environment whose lockout wrap fails once and then succeeds while
batcher construction always succeeds. -/
def lockEnv : Env :=
  { goodEnv with
      lockoutErr := fun i => if i = 0 then some "lockout: redis unreachable" else none }

/-- An environment in which the transaction-database error channel is
the first terminal signal to fire. -/
def dbErrEnv : Env :=
  { goodEnv with firstSignal := FirstSignal.txdbFatal "txdb: database corrupted" }

section RetryLemmas

variable {α : Type}

lemma retryLoop_eq_of_fail_then_ok (ctor : Nat → List Ev × Except String α) (warnEv : Ev)
    (cancelAt : Nat → Bool) (v : α) :
    ∀ (k fuel j : Nat), k < fuel →
      (∀ i, i < k → ∃ e, (ctor (j + i)).2 = Except.error e) →
      (ctor (j + k)).2 = Except.ok v →
      (∀ i, i < k → cancelAt (j + i) = false) →
      retryLoop ctor warnEv cancelAt fuel j = (retryTraceUpTo ctor warnEv j k, RetryResult.ok v) := by
  intro k
  induction k with
  | zero =>
    intro fuel j hf _ hok _
    cases fuel with
    | zero => omega
    | succ f =>
      rw [Nat.add_zero] at hok
      simp only [retryLoop, retryTraceUpTo, hok]
  | succ k ih =>
    intro fuel j hf hfail hok hnc
    cases fuel with
    | zero => omega
    | succ f =>
      obtain ⟨e, he⟩ := hfail 0 (Nat.succ_pos k)
      rw [Nat.add_zero] at he
      have hc0 : cancelAt j = false := by
        have h := hnc 0 (Nat.succ_pos k); rwa [Nat.add_zero] at h
      have hrec := ih f (j + 1) (by omega)
        (fun i hi => by
          have h := hfail (i + 1) (by omega)
          rwa [show j + (i + 1) = j + 1 + i by omega] at h)
        (by rwa [show j + 1 + k = j + (k + 1) by omega])
        (fun i hi => by
          have h := hnc (i + 1) (by omega)
          rwa [show j + (i + 1) = j + 1 + i by omega] at h)
      simp only [retryLoop, retryTraceUpTo, he, hc0, hrec, Bool.false_eq_true,
        if_false, List.append_assoc]

lemma retryLoop_cancelled_exists (ctor : Nat → List Ev × Except String α) (warnEv : Ev)
    (cancelAt : Nat → Bool) :
    ∀ fuel j, (retryLoop ctor warnEv cancelAt fuel j).2 = RetryResult.cancelled →
      ∃ i, j ≤ i ∧ cancelAt i = true := by
  intro fuel
  induction fuel with
  | zero => intro j h; simp [retryLoop] at h
  | succ f ih =>
    intro j h
    simp only [retryLoop] at h
    cases he : (ctor j).2 with
    | ok v => rw [he] at h; simp at h
    | error e =>
      rw [he] at h
      by_cases hc : cancelAt j = true
      · exact ⟨j, Nat.le_refl j, hc⟩
      · simp only [hc, if_false, Bool.false_eq_true] at h
        obtain ⟨i, hi, hci⟩ := ih (j + 1) h
        exact ⟨i, by omega, hci⟩

lemma retryLoop_ok_exists (ctor : Nat → List Ev × Except String α) (warnEv : Ev)
    (cancelAt : Nat → Bool) :
    ∀ fuel j v, (retryLoop ctor warnEv cancelAt fuel j).2 = RetryResult.ok v →
      ∃ i, j ≤ i ∧ (ctor i).2 = Except.ok v := by
  intro fuel
  induction fuel with
  | zero => intro j v h; simp [retryLoop] at h
  | succ f ih =>
    intro j v h
    simp only [retryLoop] at h
    cases he : (ctor j).2 with
    | ok w =>
      rw [he] at h
      simp only [RetryResult.ok.injEq] at h
      exact ⟨j, Nat.le_refl j, by rw [he, h]⟩
    | error e =>
      rw [he] at h
      by_cases hc : cancelAt j = true
      · simp [hc] at h
      · simp only [hc, if_false, Bool.false_eq_true] at h
        obtain ⟨i, hi, hok⟩ := ih (j + 1) v h
        exact ⟨i, by omega, hok⟩

lemma retryLoop_mem (ctor : Nat → List Ev × Except String α) (warnEv : Ev)
    (cancelAt : Nat → Bool) :
    ∀ fuel j e, e ∈ (retryLoop ctor warnEv cancelAt fuel j).1 →
      (∃ i, e ∈ (ctor i).1) ∨ e = warnEv ∨ e = Ev.wait5 := by
  intro fuel
  induction fuel with
  | zero => intro j e h; simp [retryLoop] at h
  | succ f ih =>
    intro j e h
    simp only [retryLoop] at h
    cases he : (ctor j).2 with
    | ok v =>
      rw [he] at h
      exact Or.inl ⟨j, h⟩
    | error err =>
      rw [he] at h
      by_cases hc : cancelAt j = true
      · simp only [hc, if_true] at h
        rcases List.mem_append.mp h with h1 | h2
        · exact Or.inl ⟨j, h1⟩
        · simp only [List.mem_singleton] at h2
          exact Or.inr (Or.inl h2)
      · simp only [hc, if_false, Bool.false_eq_true] at h
        rcases List.mem_append.mp h with h1 | h2
        · rcases List.mem_append.mp h1 with h3 | h4
          · exact Or.inl ⟨j, h3⟩
          · simp only [List.mem_cons, List.mem_singleton] at h4
            rcases h4 with h5 | h5 | h5
            · exact Or.inr (Or.inl h5)
            · exact Or.inr (Or.inr h5)
            · simp at h5
        · exact ih (j + 1) e h2

end RetryLemmas

section Classify

lemma not_mem_of_classify {l : List Ev} {p : Ev → Bool}
    (hcl : ∀ e ∈ l, p e = true) (e : Ev) (hp : p e = false) : e ∉ l := by
  intro h
  rw [hcl e h] at hp
  exact Bool.noConfusion hp

lemma launchTrace_classify (c : NodeConfig) : ∀ e ∈ launchTrace c, preEvOK e = true := by
  intro e he
  unfold launchTrace at he
  rcases List.mem_append.mp he with h | h
  · split at h
    · rw [List.mem_singleton] at h; subst h; rfl
    · simp at h
  · rw [List.mem_singleton] at h; subst h; rfl

lemma healthEvents_classify (c : NodeConfig) : ∀ e ∈ healthEvents c, preEvOK e = true := by
  intro e he
  unfold healthEvents at he
  rcases List.mem_append.mp he with h | h
  · rcases List.mem_append.mp h with h | h
    · simp only [List.mem_cons, List.mem_singleton, List.not_mem_nil, or_false] at h
      rcases h with rfl | rfl | rfl | rfl | rfl <;> rfl
    · split at h
      · rw [List.mem_singleton] at h; subst h; rfl
      · simp at h
  · rw [List.mem_singleton] at h; subst h; rfl

lemma feedEvents_classify (c : NodeConfig) : ∀ e ∈ feedEvents c, preEvOK e = true := by
  intro e he
  unfold feedEvents at he
  split at he
  · rw [List.mem_singleton] at he; subst he; rfl
  · rw [List.mem_map] at he
    obtain ⟨u, _, rfl⟩ := he
    rfl

lemma preInboxTrace_classify (c : NodeConfig) : ∀ e ∈ preInboxTrace c, preEvOK e = true := by
  intro e he
  unfold preInboxTrace at he
  rcases List.mem_append.mp he with h | h
  · rcases List.mem_append.mp h with h | h
    · rcases List.mem_append.mp h with h | h
      · exact launchTrace_classify c e h
      · rw [List.mem_singleton] at h; subst h; rfl
    · exact healthEvents_classify c e h
  · exact feedEvents_classify c e h

lemma parseErrTrace_classify (env : Env) :
    ∀ e ∈ parseErrTrace env, ∃ s, e = Ev.printParseErr s := by
  intro e he
  unfold parseErrTrace at he
  cases hp : env.parseErr with
  | none => rw [hp] at he; simp at he
  | some s =>
    rw [hp] at he
    split at he
    · split at he
      · simp at he
      · rw [List.mem_singleton] at he; exact ⟨_, he⟩
    · simp at he

lemma inboxLoop_classify (env : Env) : ∀ e ∈ (inboxLoop env).1, inboxEvOK e = true := by
  intro e he
  unfold inboxLoop at he
  rcases retryLoop_mem _ _ _ env.fuel 0 e he with ⟨i, hi⟩ | h | h
  · rw [show (inboxCtor env i).1 = [Ev.inboxAttempt i] from rfl, List.mem_singleton] at hi
    subst hi; rfl
  · subst h; rfl
  · subst h; rfl

lemma batcherCtor_fst_mem (env : Env) (c : NodeConfig) (i : Nat) (e : Ev)
    (h : e ∈ (batcherCtor env c i).1) :
    e = Ev.batcherAttempt i ∨ e = Ev.lockoutAttempt i ∨ e = Ev.downcastPanic := by
  unfold batcherCtor at h
  cases hbe : env.batcherErr i with
  | some err =>
    rw [hbe] at h
    rw [List.mem_singleton] at h
    exact Or.inl h
  | none =>
    rw [hbe] at h
    by_cases hr : c.lockoutRedis = ""
    · rw [if_pos hr, List.mem_singleton] at h
      exact Or.inl h
    · rw [if_neg hr] at h
      cases hd : asSequencerBatcher (setupBatcherValue (resolveBatcherMode c)) with
      | none =>
        rw [hd] at h
        simp only [List.mem_cons, List.mem_singleton, List.not_mem_nil, or_false] at h
        rcases h with rfl | rfl
        · exact Or.inl rfl
        · exact Or.inr (Or.inr rfl)
      | some b =>
        rw [hd] at h
        cases hl : env.lockoutErr i <;> rw [hl] at h <;>
          simp only [List.mem_cons, List.mem_singleton, List.not_mem_nil, or_false] at h <;>
          rcases h with rfl | rfl
        · exact Or.inl rfl
        · exact Or.inr (Or.inl rfl)
        · exact Or.inl rfl
        · exact Or.inr (Or.inl rfl)

lemma batcherLoop_classify (env : Env) (c : NodeConfig) :
    ∀ e ∈ (batcherLoop env c).1, batcherEvOK e = true := by
  intro e he
  unfold batcherLoop at he
  rcases retryLoop_mem _ _ _ env.fuel 0 e he with ⟨i, hi⟩ | h | h
  · rcases batcherCtor_fst_mem env c i e hi with rfl | rfl | rfl <;> rfl
  · subst h; rfl
  · subst h; rfl

end Classify

section GuardLemmas

lemma guard_redis_sequencer (c : NodeConfig) (hg : configGuardFails c = false)
    (hr : ¬ c.lockoutRedis = "") : c.nodeType = "sequencer" := by
  by_contra hs
  have htrue : configGuardFails c = true := by
    unfold configGuardFails
    rw [decide_eq_false hs, decide_eq_false hr]
    simp
  rw [htrue] at hg
  exact Bool.noConfusion hg

lemma batcherCtor_lockout_redis (env : Env) (c : NodeConfig) (i j : Nat)
    (h : Ev.lockoutAttempt j ∈ (batcherCtor env c i).1) : ¬ c.lockoutRedis = "" := by
  intro hr
  unfold batcherCtor at h
  cases hbe : env.batcherErr i with
  | some err => rw [hbe] at h; simp at h
  | none =>
    rw [hbe, if_pos hr] at h
    simp at h

lemma batcherCtor_no_panic (env : Env) (c : NodeConfig) (i : Nat)
    (hg : configGuardFails c = false) :
    Ev.downcastPanic ∉ (batcherCtor env c i).1 := by
  intro h
  unfold batcherCtor at h
  cases hbe : env.batcherErr i with
  | some err => rw [hbe] at h; simp at h
  | none =>
    rw [hbe] at h
    by_cases hr : c.lockoutRedis = ""
    · rw [if_pos hr] at h; simp at h
    · rw [if_neg hr] at h
      have hseq := guard_redis_sequencer c hg hr
      have hmode : resolveBatcherMode c =
          BatcherMode.sequencerBatcherMode c.delayedMessagesTargetDelay c.createBatchBlockInterval := by
        unfold resolveBatcherMode
        rw [if_neg (by rw [hseq]; decide), if_pos hseq]
      rw [hmode] at h
      rw [show asSequencerBatcher (setupBatcherValue
            (BatcherMode.sequencerBatcherMode c.delayedMessagesTargetDelay
              c.createBatchBlockInterval)) = some Batcher.sequencerBatcher from rfl] at h
      cases hl : env.lockoutErr i <;> rw [hl] at h <;> simp at h

lemma batcherCtor_seq_lockout (env : Env) (c : NodeConfig) (i : Nat)
    (hseq : c.nodeType = "sequencer") (hr : ¬ c.lockoutRedis = "")
    (hbe : env.batcherErr i = none) :
    batcherCtor env c i =
      ([Ev.batcherAttempt i, Ev.lockoutAttempt i],
       match env.lockoutErr i with
       | some e => Except.error e
       | none => Except.ok Batcher.lockoutBatcher) := by
  have hmode : resolveBatcherMode c =
      BatcherMode.sequencerBatcherMode c.delayedMessagesTargetDelay c.createBatchBlockInterval := by
    unfold resolveBatcherMode
    rw [if_neg (by rw [hseq]; decide), if_pos hseq]
  unfold batcherCtor
  rw [hbe, if_neg hr, hmode]
  rw [show asSequencerBatcher (setupBatcherValue
        (BatcherMode.sequencerBatcherMode c.delayedMessagesTargetDelay
          c.createBatchBlockInterval)) = some Batcher.sequencerBatcher from rfl]
  cases hl : env.lockoutErr i <;> rfl

lemma batcherLoop_no_panic (env : Env) (c : NodeConfig)
    (hg : configGuardFails c = false) :
    Ev.downcastPanic ∉ (batcherLoop env c).1 := by
  intro h
  unfold batcherLoop at h
  rcases retryLoop_mem _ _ _ env.fuel 0 _ h with ⟨i, hi⟩ | h' | h'
  · exact batcherCtor_no_panic env c i hg hi
  · exact Ev.noConfusion h'
  · exact Ev.noConfusion h'

end GuardLemmas

section ResolveLemmas

lemma resolveConfig_nodeType (c : NodeConfig) : (resolveConfig c).nodeType = c.nodeType := by
  unfold resolveConfig; split <;> rfl

lemma resolveConfig_lockoutRedis (c : NodeConfig) :
    (resolveConfig c).lockoutRedis = c.lockoutRedis := by
  unfold resolveConfig; split <;> rfl

lemma resolveConfig_wait (c : NodeConfig) :
    (resolveConfig c).waitToCatchUp =
      (if c.nodeType = "sequencer" then true else c.waitToCatchUp) := by
  unfold resolveConfig; split <;> rfl

lemma resolveBatcherMode_resolveConfig (c : NodeConfig) :
    resolveBatcherMode (resolveConfig c) = resolveBatcherMode c := by
  unfold resolveBatcherMode resolveConfig; split <;> rfl

lemma batcherCtor_resolveConfig (env : Env) (c : NodeConfig) :
    batcherCtor env (resolveConfig c) = batcherCtor env c := by
  funext i
  unfold batcherCtor
  rw [resolveBatcherMode_resolveConfig, resolveConfig_lockoutRedis]

lemma batcherLoop_resolveConfig (env : Env) (c : NodeConfig) :
    batcherLoop env (resolveConfig c) = batcherLoop env c := by
  unfold batcherLoop
  rw [batcherCtor_resolveConfig]

lemma keystoreAndBalance_resolveConfig (env : Env) (c : NodeConfig) :
    keystoreAndBalance env (resolveConfig c) = keystoreAndBalance env c := by
  unfold keystoreAndBalance
  rw [resolveConfig_nodeType]

lemma configGuardFails_resolveConfig (c : NodeConfig) :
    configGuardFails (resolveConfig c) = configGuardFails c := by
  unfold configGuardFails resolveConfig; split <;> rfl

end ResolveLemmas

section MainWalk

lemma startupMain_mem_cases (env : Env) (c : NodeConfig) (e : Ev)
    (h : e ∈ (startupMain env c).1) :
    preEvOK e = true ∨ inboxEvOK e = true ∨ e ∈ (batcherLoop env c).1 ∨
      (e = Ev.catchUpWait ∧ c.waitToCatchUp = true) ∨ fixedEvOK e = true := by
  have hT : ∀ (S : List Ev),
      (∀ a ∈ S, a = Ev.catchUpWait ∧ c.waitToCatchUp = true) →
      ∀ a, a ∈ preInboxTrace c ++ (inboxLoop env).1 ++ [Ev.nodeStoreMetrics] ++
        [Ev.dbOpen] ++ S ++ (batcherLoop env c).1 →
      preEvOK a = true ∨ inboxEvOK a = true ∨ a ∈ (batcherLoop env c).1 ∨
        (a = Ev.catchUpWait ∧ c.waitToCatchUp = true) ∨ fixedEvOK a = true := by
    intro S hS a ha
    rcases List.mem_append.mp ha with ha | ha
    · rcases List.mem_append.mp ha with ha | ha
      · rcases List.mem_append.mp ha with ha | ha
        · rcases List.mem_append.mp ha with ha | ha
          · rcases List.mem_append.mp ha with ha | ha
            · exact Or.inl (preInboxTrace_classify c a ha)
            · exact Or.inr (Or.inl (inboxLoop_classify env a ha))
          · rw [List.mem_singleton] at ha
            subst ha
            exact Or.inr (Or.inr (Or.inr (Or.inr rfl)))
        · rw [List.mem_singleton] at ha
          subst ha
          exact Or.inr (Or.inr (Or.inr (Or.inr rfl)))
      · exact Or.inr (Or.inr (Or.inr (Or.inl (hS a ha))))
    · exact Or.inr (Or.inr (Or.inl ha))
  unfold startupMain at h
  split at h
  · rw [List.mem_singleton] at h
    subst h
    exact Or.inr (Or.inr (Or.inr (Or.inr rfl)))
  · split at h
    · rcases List.mem_append.mp h with h | h
      · exact Or.inl (launchTrace_classify c e h)
      · rw [List.mem_singleton] at h
        subst h
        exact Or.inr (Or.inr (Or.inr (Or.inr rfl)))
    · split at h
      · rcases List.mem_append.mp h with h | h
        · exact Or.inl (preInboxTrace_classify c e h)
        · exact Or.inr (Or.inl (inboxLoop_classify env e h))
      · rcases List.mem_append.mp h with h | h
        · rcases List.mem_append.mp h with h | h
          · exact Or.inl (preInboxTrace_classify c e h)
          · exact Or.inr (Or.inl (inboxLoop_classify env e h))
        · simp only [List.mem_cons, List.mem_singleton, List.not_mem_nil, or_false] at h
          rcases h with rfl | rfl <;> exact Or.inr (Or.inr (Or.inr (Or.inr rfl)))
      · split at h
        · rcases List.mem_append.mp h with h | h
          · rcases List.mem_append.mp h with h | h
            · exact Or.inl (preInboxTrace_classify c e h)
            · exact Or.inr (Or.inl (inboxLoop_classify env e h))
          · simp only [List.mem_cons, List.mem_singleton, List.not_mem_nil, or_false] at h
            rcases h with rfl | rfl <;> exact Or.inr (Or.inr (Or.inr (Or.inr rfl)))
        · split at h
          · rcases List.mem_append.mp h with h | h
            · rcases List.mem_append.mp h with h | h
              · rcases List.mem_append.mp h with h | h
                · exact Or.inl (preInboxTrace_classify c e h)
                · exact Or.inr (Or.inl (inboxLoop_classify env e h))
              · rw [List.mem_singleton] at h
                subst h
                exact Or.inr (Or.inr (Or.inr (Or.inr rfl)))
            · simp only [List.mem_cons, List.mem_singleton, List.not_mem_nil, or_false] at h
              rcases h with rfl | rfl <;> exact Or.inr (Or.inr (Or.inr (Or.inr rfl)))
          · split at h <;>
              [ (have hS : ∀ a ∈ [Ev.catchUpWait], a = Ev.catchUpWait ∧ c.waitToCatchUp = true := by
                  intro a ha
                  rw [List.mem_singleton] at ha
                  exact ⟨ha, by assumption⟩);
                (have hS : ∀ a ∈ ([] : List Ev), a = Ev.catchUpWait ∧ c.waitToCatchUp = true := by
                  intro a ha
                  simp at ha)] <;>
            split at h
            · exact hT _ hS e h
            · rcases List.mem_append.mp h with h | h
              · exact hT _ hS e h
              · simp only [List.mem_cons, List.mem_singleton, List.not_mem_nil, or_false] at h
                rcases h with rfl | rfl | rfl <;> exact Or.inr (Or.inr (Or.inr (Or.inr rfl)))
            · split at h
              · rcases List.mem_append.mp h with h | h
                · rcases List.mem_append.mp h with h | h
                  · exact hT _ hS e h
                  · simp only [List.mem_cons, List.mem_singleton, List.not_mem_nil, or_false] at h
                    rcases h with rfl | rfl | rfl <;>
                      exact Or.inr (Or.inr (Or.inr (Or.inr rfl)))
                · simp only [List.mem_cons, List.mem_singleton, List.not_mem_nil, or_false] at h
                  rcases h with rfl | rfl | rfl <;> exact Or.inr (Or.inr (Or.inr (Or.inr rfl)))
              · rcases List.mem_append.mp h with h | h
                · rcases List.mem_append.mp h with h | h
                  · exact hT _ hS e h
                  · simp only [List.mem_cons, List.mem_singleton, List.not_mem_nil, or_false] at h
                    rcases h with rfl | rfl | rfl <;>
                      exact Or.inr (Or.inr (Or.inr (Or.inr rfl)))
                · simp only [List.mem_cons, List.mem_singleton, List.not_mem_nil, or_false] at h
                  rcases h with rfl | rfl | rfl | rfl <;>
                    exact Or.inr (Or.inr (Or.inr (Or.inr rfl)))
            · exact hT _ hS e h
            · rcases List.mem_append.mp h with h | h
              · exact hT _ hS e h
              · simp only [List.mem_cons, List.mem_singleton, List.not_mem_nil, or_false] at h
                rcases h with rfl | rfl | rfl <;> exact Or.inr (Or.inr (Or.inr (Or.inr rfl)))
            · split at h
              · rcases List.mem_append.mp h with h | h
                · rcases List.mem_append.mp h with h | h
                  · exact hT _ hS e h
                  · simp only [List.mem_cons, List.mem_singleton, List.not_mem_nil, or_false] at h
                    rcases h with rfl | rfl | rfl <;>
                      exact Or.inr (Or.inr (Or.inr (Or.inr rfl)))
                · simp only [List.mem_cons, List.mem_singleton, List.not_mem_nil, or_false] at h
                  rcases h with rfl | rfl | rfl <;> exact Or.inr (Or.inr (Or.inr (Or.inr rfl)))
              · rcases List.mem_append.mp h with h | h
                · rcases List.mem_append.mp h with h | h
                  · exact hT _ hS e h
                  · simp only [List.mem_cons, List.mem_singleton, List.not_mem_nil, or_false] at h
                    rcases h with rfl | rfl | rfl <;>
                      exact Or.inr (Or.inr (Or.inr (Or.inr rfl)))
                · simp only [List.mem_cons, List.mem_singleton, List.not_mem_nil, or_false] at h
                  rcases h with rfl | rfl | rfl | rfl <;>
                    exact Or.inr (Or.inr (Or.inr (Or.inr rfl)))

lemma startupMain_db_suffix (env : Env) (c : NodeConfig)
    (hdb : Ev.dbOpen ∈ (startupMain env c).1)
    (hterm : (startupMain env c).2 ≠ Outcome.diverge) :
    ∃ t, (startupMain env c).1 = t ++ [Ev.dbClose, Ev.monClose, Ev.logClean] := by
  have hd1 : Ev.dbOpen ∉ preInboxTrace c :=
    not_mem_of_classify (preInboxTrace_classify c) _ rfl
  have hd2 : Ev.dbOpen ∉ (inboxLoop env).1 :=
    not_mem_of_classify (inboxLoop_classify env) _ rfl
  have hd3 : Ev.dbOpen ∉ launchTrace c :=
    not_mem_of_classify (launchTrace_classify c) _ rfl
  cases hpl : env.parseLogFlagsErr with
  | some e =>
    have heq : startupMain env c = ([Ev.logClean], Outcome.ret (some e)) := by
      unfold startupMain; rw [hpl]
    rw [heq] at hdb
    simp at hdb
  | none =>
    cases hmon : env.monitorErr with
    | some e =>
      have heq : startupMain env c =
          (launchTrace c ++ [Ev.logClean],
           Outcome.ret (some ("error opening monitor: " ++ e))) := by
        unfold startupMain; rw [hpl, hmon]
      rw [heq] at hdb
      simp [hd3] at hdb
    | none =>
      cases hir : (inboxLoop env).2 with
      | fuelOut =>
        have heq : startupMain env c =
            (preInboxTrace c ++ (inboxLoop env).1, Outcome.diverge) := by
          unfold startupMain; rw [hpl, hmon, hir]
        rw [heq] at hterm
        exact absurd rfl hterm
      | cancelled =>
        have heq : startupMain env c =
            (preInboxTrace c ++ (inboxLoop env).1 ++ [Ev.monClose, Ev.logClean],
             Outcome.ret (some "ctx cancelled StartInboxReader retry loop")) := by
          unfold startupMain; rw [hpl, hmon, hir]
        rw [heq] at hdb
        simp [hd1, hd2] at hdb
      | ok v =>
        cases hkb : keystoreAndBalance env c with
        | some e =>
          have heq : startupMain env c =
              (preInboxTrace c ++ (inboxLoop env).1 ++ [Ev.monClose, Ev.logClean],
               Outcome.ret (some e)) := by
            unfold startupMain; rw [hpl, hmon, hir, hkb]
          rw [heq] at hdb
          simp [hd1, hd2] at hdb
        | none =>
          cases htx : env.txdbErr with
          | some e =>
            have heq : startupMain env c =
                (preInboxTrace c ++ (inboxLoop env).1 ++ [Ev.nodeStoreMetrics] ++
                   [Ev.monClose, Ev.logClean],
                 Outcome.ret (some ("error opening txdb: " ++ e))) := by
              unfold startupMain; rw [hpl, hmon, hir, hkb, htx]
            rw [heq] at hdb
            simp [hd1, hd2] at hdb
          | none =>
            cases hbr : (batcherLoop env c).2 with
            | fuelOut =>
              have heq : startupMain env c =
                  (preInboxTrace c ++ (inboxLoop env).1 ++ [Ev.nodeStoreMetrics] ++
                     [Ev.dbOpen] ++ (if c.waitToCatchUp then [Ev.catchUpWait] else []) ++
                     (batcherLoop env c).1,
                   Outcome.diverge) := by
                unfold startupMain; rw [hpl, hmon, hir, hkb, htx, hbr]
              rw [heq] at hterm
              exact absurd rfl hterm
            | cancelled =>
              refine ⟨preInboxTrace c ++ (inboxLoop env).1 ++ [Ev.nodeStoreMetrics] ++
                 [Ev.dbOpen] ++ (if c.waitToCatchUp then [Ev.catchUpWait] else []) ++
                 (batcherLoop env c).1, ?_⟩
              unfold startupMain
              rw [hpl, hmon, hir, hkb, htx, hbr]
            | ok b =>
              cases hw : env.web3Err with
              | some e =>
                refine ⟨preInboxTrace c ++ (inboxLoop env).1 ++ [Ev.nodeStoreMetrics] ++
                   [Ev.dbOpen] ++ (if c.waitToCatchUp then [Ev.catchUpWait] else []) ++
                   (batcherLoop env c).1 ++
                   [Ev.batchStart, Ev.systemMetrics, Ev.staticMetrics], ?_⟩
                unfold startupMain
                rw [hpl, hmon, hir, hkb, htx, hbr, hw]
              | none =>
                refine ⟨preInboxTrace c ++ (inboxLoop env).1 ++ [Ev.nodeStoreMetrics] ++
                   [Ev.dbOpen] ++ (if c.waitToCatchUp then [Ev.catchUpWait] else []) ++
                   (batcherLoop env c).1 ++
                   [Ev.batchStart, Ev.systemMetrics, Ev.staticMetrics] ++
                   [Ev.serverLaunch], ?_⟩
                unfold startupMain
                rw [hpl, hmon, hir, hkb, htx, hbr, hw]
                simp [List.append_assoc]

end MainWalk

section StartupWalk

lemma phase1Fails_false_elim (env : Env) (c : NodeConfig)
    (h : ¬ phase1Fails env c = true) :
    env.parseErr = none ∧ configGuardFails c = false := by
  have hp1 : phase1Fails env c = false := by
    cases hb : phase1Fails env c
    · rfl
    · exact absurd hb h
  unfold phase1Fails at hp1
  rcases Bool.or_eq_false_iff.mp hp1 with ⟨ha, hb⟩
  refine ⟨?_, hb⟩
  cases hz : env.parseErr
  · rfl
  · rw [hz] at ha; simp at ha

lemma startup_mem_cases (env : Env) (c : NodeConfig) (e : Ev)
    (h : e ∈ (startup env c).1) :
    e = Ev.printUsage ∨ (∃ s, e = Ev.printParseErr s) ∨ (∃ s, e = Ev.printMsg s) ∨
      (configGuardFails c = false ∧ phase2Msgs c = [] ∧
        (preEvOK e = true ∨ inboxEvOK e = true ∨ e ∈ (batcherLoop env c).1 ∨
          (e = Ev.catchUpWait ∧ (resolveConfig c).waitToCatchUp = true) ∨
          fixedEvOK e = true)) := by
  unfold startup at h
  split at h
  · rcases List.mem_append.mp h with h | h
    · rw [List.mem_singleton] at h
      exact Or.inl h
    · exact Or.inr (Or.inl (parseErrTrace_classify env e h))
  · rename_i h1
    split at h
    · rename_i h2
      have hcg := (phase1Fails_false_elim env c h1).2
      have hmc := startupMain_mem_cases env (resolveConfig c) e h
      rw [batcherLoop_resolveConfig] at hmc
      exact Or.inr (Or.inr (Or.inr ⟨hcg, h2, hmc⟩))
    · rw [List.mem_map] at h
      obtain ⟨s, _, rfl⟩ := h
      exact Or.inr (Or.inr (Or.inl ⟨s, rfl⟩))

lemma startup_invalid (env : Env) (c : NodeConfig)
    (h : configGuardFails c = true ∨ ¬ phase2Msgs c = []) :
    (startup env c).2 = Outcome.ret none ∧
      ∀ e ∈ (startup env c).1, isSubsystemEv e = false := by
  unfold startup
  split
  · refine ⟨rfl, ?_⟩
    intro e he
    rcases List.mem_append.mp he with h' | h'
    · rw [List.mem_singleton] at h'
      subst h'
      rfl
    · obtain ⟨s, rfl⟩ := parseErrTrace_classify env e h'
      rfl
  · rename_i h1
    split
    · rename_i h2
      exfalso
      rcases h with hg | hm
      · exact absurd hg (by rw [(phase1Fails_false_elim env c h1).2]; simp)
      · exact hm h2
    · refine ⟨rfl, ?_⟩
      intro e he
      rw [List.mem_map] at he
      obtain ⟨s, _, rfl⟩ := he
      rfl

lemma startup_db_suffix (env : Env) (c : NodeConfig)
    (hdb : Ev.dbOpen ∈ (startup env c).1)
    (hterm : (startup env c).2 ≠ Outcome.diverge) :
    ∃ t, (startup env c).1 = t ++ [Ev.dbClose, Ev.monClose, Ev.logClean] := by
  unfold startup at hdb hterm ⊢
  split at hdb
  · rcases List.mem_append.mp hdb with h' | h'
    · simp at h'
    · obtain ⟨s, hs⟩ := parseErrTrace_classify env _ h'
      exact Ev.noConfusion hs
  · rename_i h1
    split at hdb
    · rename_i h2
      rw [if_neg h1, if_pos h2] at hterm ⊢
      exact startupMain_db_suffix env (resolveConfig c) hdb hterm
    · rw [List.mem_map] at hdb
      obtain ⟨s, _, hs⟩ := hdb
      exact Ev.noConfusion hs

end StartupWalk

section Counting

lemma inboxTrace_counts (env : Env) :
    ∀ k, ∀ j,
      (retryTraceUpTo (inboxCtor env) Ev.inboxWarn j k).countP isInboxAttempt = k + 1 ∧
      (retryTraceUpTo (inboxCtor env) Ev.inboxWarn j k).countP isInboxWarnEv = k ∧
      (retryTraceUpTo (inboxCtor env) Ev.inboxWarn j k).countP isWait5Ev = k := by
  intro k
  induction k with
  | zero =>
    intro j
    refine ⟨?_, ?_, ?_⟩ <;>
      simp [retryTraceUpTo, inboxCtor, List.countP_cons, List.countP_nil,
        isInboxAttempt, isInboxWarnEv, isWait5Ev]
  | succ k ih =>
    intro j
    obtain ⟨ih1, ih2, ih3⟩ := ih (j + 1)
    refine ⟨?_, ?_, ?_⟩ <;>
      simp [retryTraceUpTo, inboxCtor, List.countP_append, List.countP_cons,
        List.countP_nil, isInboxAttempt, isInboxWarnEv, isWait5Ev, ih1, ih2, ih3]

end Counting

section Claims

/-- C7: Lockout validation rules.  A configuration whose role is not
`sequencer` but whose lockout redis address is non-empty fails the early
guard, and, for every role, a configuration with exactly one of the
lockout redis address and lockout self-RPC URL set fails the early
guard; any configuration failing the guard is rejected by `startup`
without starting a subsystem and with no error. -/
theorem lockout_validation_rules :
    (∀ c : NodeConfig, ¬ c.nodeType = "sequencer" → ¬ c.lockoutRedis = "" →
      configGuardFails c = true) ∧
    (∀ c : NodeConfig, ((c.lockoutRedis = "") ↔ ¬ (c.lockoutSelfRPCURL = "")) →
      configGuardFails c = true) ∧
    (∀ env c, configGuardFails c = true →
      (startup env c).2 = Outcome.ret none ∧ Ev.monOpen ∉ (startup env c).1 ∧
        Ev.dbOpen ∉ (startup env c).1) := by
  refine ⟨?_, ?_, ?_⟩
  · intro c hs hr
    unfold configGuardFails
    rw [decide_eq_false hs, decide_eq_false hr]
    simp
  · intro c hx
    unfold configGuardFails
    by_cases hr : c.lockoutRedis = ""
    · rw [decide_eq_true hr, decide_eq_false (hx.mp hr)]
      simp
    · have hs : c.lockoutSelfRPCURL = "" := by
        by_contra hns
        exact hr (hx.mpr hns)
      rw [decide_eq_false hr, decide_eq_true hs]
      simp
  · intro env c hg
    have hinv := startup_invalid env c (Or.inl hg)
    refine ⟨hinv.1, ?_, ?_⟩
    · intro hm
      have hsub := hinv.2 _ hm
      exact Bool.noConfusion hsub
    · intro hm
      have hsub := hinv.2 _ hm
      exact Bool.noConfusion hsub

/-- Witness for C7: `c7Cfg` (forwarder with redis set) fails validation
and is rejected with no error, and a sequencer config with only the
redis half of the lockout pair also fails validation. -/
theorem lockout_validation_rules_witness :
    configGuardFails c7Cfg = true ∧
    (startup goodEnv c7Cfg).2 = Outcome.ret none ∧
    configGuardFails { seqCfg with lockoutSelfRPCURL := "" } = true := by
  refine ⟨?_, ?_, ?_⟩
  · exact lockout_validation_rules.1 c7Cfg (by decide) (by decide)
  · exact (lockout_validation_rules.2.2 goodEnv c7Cfg
      (lockout_validation_rules.1 c7Cfg (by decide) (by decide))).1
  · exact lockout_validation_rules.2.1 _ (by decide)

/-- C10: for every environment and configuration, the failure branch of
the `batch.(*batcher.SequencerBatcher)` type assertion is unreachable
(no `downcastPanic` ever appears in a startup trace), and whenever the
lockout-wrap branch is reached the node type is `sequencer`, so the
batcher being wrapped was constructed from the sequencer mode descriptor
and is a sequencer batcher. -/
theorem lockout_downcast_safety :
    (∀ env c, Ev.downcastPanic ∉ (startup env c).1) ∧
    (∀ env c i, Ev.lockoutAttempt i ∈ (startup env c).1 →
      c.nodeType = "sequencer" ∧
      resolveBatcherMode c =
        BatcherMode.sequencerBatcherMode c.delayedMessagesTargetDelay
          c.createBatchBlockInterval ∧
      setupBatcherValue (resolveBatcherMode c) = Batcher.sequencerBatcher) := by
  constructor
  · intro env c h
    rcases startup_mem_cases env c _ h with h | ⟨s, h⟩ | ⟨s, h⟩ | ⟨hcg, _, hin⟩
    · exact Ev.noConfusion h
    · exact Ev.noConfusion h
    · exact Ev.noConfusion h
    · rcases hin with h | h | h | ⟨h, _⟩ | h
      · exact Bool.noConfusion h
      · exact Bool.noConfusion h
      · exact batcherLoop_no_panic env c hcg h
      · exact Ev.noConfusion h
      · exact Bool.noConfusion h
  · intro env c i h
    rcases startup_mem_cases env c _ h with h | ⟨s, h⟩ | ⟨s, h⟩ | ⟨hcg, _, hin⟩
    · exact Ev.noConfusion h
    · exact Ev.noConfusion h
    · exact Ev.noConfusion h
    · rcases hin with h | h | h | ⟨h, _⟩ | h
      · exact Bool.noConfusion h
      · exact Bool.noConfusion h
      · have hr : ¬ c.lockoutRedis = "" := by
          unfold batcherLoop at h
          rcases retryLoop_mem _ _ _ env.fuel 0 _ h with ⟨j, hj⟩ | h' | h'
          · exact batcherCtor_lockout_redis env c j i hj
          · exact Ev.noConfusion h'
          · exact Ev.noConfusion h'
        have hseq := guard_redis_sequencer c hcg hr
        have hmode : resolveBatcherMode c =
            BatcherMode.sequencerBatcherMode c.delayedMessagesTargetDelay
              c.createBatchBlockInterval := by
          unfold resolveBatcherMode
          rw [if_neg (by rw [hseq]; decide), if_pos hseq]
        exact ⟨hseq, hmode, by rw [hmode]; rfl⟩
      · exact Ev.noConfusion h
      · exact Bool.noConfusion h

/-- Witness for C10: in a run of a valid sequencer-with-lockout config
the lockout branch is reached, and the theorem yields that the node type
is `sequencer`. -/
theorem lockout_downcast_safety_witness :
    Ev.lockoutAttempt 0 ∈ (startup goodEnv seqCfg).1 ∧ seqCfg.nodeType = "sequencer" :=
  ⟨by decide, (lockout_downcast_safety.2 goodEnv seqCfg 0 (by decide)).1⟩

/-- C9: on every terminating exit path of `startup` reached after the
transaction database has been opened, the deferred release actions run
in reverse acquisition order: the trace ends with closing the
transaction database, then closing the node-core monitor, then the
"Cleanly shutting down node" log. -/
theorem deferred_cleanup_order (env : Env) (c : NodeConfig)
    (hdb : Ev.dbOpen ∈ (startup env c).1)
    (hterm : (startup env c).2 ≠ Outcome.diverge) :
    ∃ t, (startup env c).1 = t ++ [Ev.dbClose, Ev.monClose, Ev.logClean] :=
  startup_db_suffix env c hdb hterm

/-- Witness for C9: a fully successful forwarder run opens the database
and its trace ends with the three deferred release actions in order. -/
theorem deferred_cleanup_order_witness :
    Ev.dbOpen ∈ (startup goodEnv fwdCfg).1 ∧
    ∃ t, (startup goodEnv fwdCfg).1 = t ++ [Ev.dbClose, Ev.monClose, Ev.logClean] :=
  ⟨by decide, deferred_cleanup_order goodEnv fwdCfg (by decide) (by decide)⟩

/-- C6 counterexample: the claim says every invalid configuration gets
usage text printed.  `c6Bad` (chain id 0) violates a validation rule,
yet its run prints only the per-rule message and never the usage
text. -/
theorem usage_not_printed_counterexample :
    phase2Msgs c6Bad ≠ [] ∧
    (startup goodEnv c6Bad).1 = [Ev.printMsg "Missing --rollup.chain-id"] ∧
    Ev.printUsage ∉ (startup goodEnv c6Bad).1 ∧
    (startup goodEnv c6Bad).2 = Outcome.ret none := by
  refine ⟨by decide, by decide, by decide, by decide⟩

/-- C6 (amended): for every configuration violating a validation rule
(either the early guard or a second-phase rule), `startup` starts zero
subsystems and returns no error; usage text is printed exactly when the
early guard fires, while second-phase violations print only their
per-rule messages. -/
theorem invalid_config_no_side_effects (env : Env) (c : NodeConfig)
    (h : configGuardFails c = true ∨ ¬ phase2Msgs c = []) :
    (startup env c).2 = Outcome.ret none ∧
      ∀ e ∈ (startup env c).1, isSubsystemEv e = false :=
  startup_invalid env c h

/-- Witness for C6: the chain-id-violating configuration `c6Bad` yields
a no-error exit with no subsystem event. -/
theorem invalid_config_no_side_effects_witness :
    (startup goodEnv c6Bad).2 = Outcome.ret none ∧
      ∀ e ∈ (startup goodEnv c6Bad).1, isSubsystemEv e = false :=
  invalid_config_no_side_effects goodEnv c6Bad (Or.inr (by decide))

/-- C1 counterexample: the claim says the validator evaluates every rule
and prints a message for each violated one.  `c1Bad` violates both the
L1-URL rule and the chain-id rule, yet the run prints only the usage
text: the violated chain-id rule (whose message is in `phase2Msgs`)
produces no printed message, because the early guard returns before the
second phase runs. -/
theorem validator_fail_fast_counterexample :
    "Missing --rollup.chain-id" ∈ phase2Msgs c1Bad ∧
    c1Bad.l1URL = "" ∧
    (startup goodEnv c1Bad).1 = [Ev.printUsage] ∧
    Ev.printMsg "Missing --rollup.chain-id" ∉ (startup goodEnv c1Bad).1 := by
  refine ⟨by decide, by decide, by decide, by decide⟩

/-- C1 (amended): validation is two-phase.  The early guard (parse
error, global config path, L1 URL, rollup address, bridge-utils address,
lockout rules) is fail-fast and prints only usage text; for every
configuration that passes the early guard, the second phase is
non-fail-fast: it evaluates all of its rules and prints a message for
each violated one, so all second-phase violations are reported in one
run. -/
theorem second_phase_reports_all_violations (env : Env) (c : NodeConfig)
    (hpe : env.parseErr = none) (hcg : configGuardFails c = false) :
    (c.persistentChain = "" →
        Ev.printMsg "Missing --persistent.chain" ∈ (startup env c).1) ∧
    (c.nodeChainID = 0 →
        Ev.printMsg "Missing --rollup.chain-id" ∈ (startup env c).1) ∧
    (c.machineFilename = "" →
        Ev.printMsg "Missing --rollup.machine.filename" ∈ (startup env c).1) ∧
    (c.nodeType = "forwarder" → c.forwarderTarget = "" →
        Ev.printMsg "Forwarder node needs --node.forwarder.target" ∈ (startup env c).1) ∧
    (c.nodeType = "aggregator" → c.aggregatorInboxAddress = "" →
        Ev.printMsg "Aggregator node needs --node.aggregator.inbox-address" ∈
          (startup env c).1) ∧
    (¬ c.nodeType = "forwarder" → ¬ c.nodeType = "aggregator" →
        ¬ c.nodeType = "sequencer" →
        Ev.printMsg ("Unrecognized node type " ++ c.nodeType) ∈ (startup env c).1) := by
  have hp1 : phase1Fails env c = false := by
    unfold phase1Fails
    rw [hpe, hcg]
    rfl
  have key : ∀ m, m ∈ phase2Msgs c → Ev.printMsg m ∈ (startup env c).1 := by
    intro m hm
    have hne : ¬ phase2Msgs c = [] := by
      intro h0
      rw [h0] at hm
      exact List.not_mem_nil m hm
    unfold startup
    rw [if_neg (by rw [hp1]; simp), if_neg hne]
    exact List.mem_map_of_mem Ev.printMsg hm
  refine ⟨?_, ?_, ?_, ?_, ?_, ?_⟩
  · intro hz
    refine key _ ?_
    unfold phase2Msgs
    simp [hz]
  · intro hz
    refine key _ ?_
    unfold phase2Msgs
    simp [hz]
  · intro hz
    refine key _ ?_
    unfold phase2Msgs
    simp [hz]
  · intro ht hz
    refine key _ ?_
    unfold phase2Msgs
    simp [ht, hz]
  · intro ht hz
    refine key _ ?_
    unfold phase2Msgs
    have hnf : ¬ c.nodeType = "forwarder" := by rw [ht]; decide
    simp [ht, hnf, hz]
  · intro h1 h2 h3
    refine key _ ?_
    unfold phase2Msgs
    simp [h1, h2, h3]

/-- Witness for C1 (amended): a configuration violating both the
chain-id rule and the machine-file rule has both messages printed in the
same run. -/
theorem second_phase_reports_all_violations_witness :
    Ev.printMsg "Missing --rollup.chain-id" ∈ (startup goodEnv c1Wit).1 ∧
    Ev.printMsg "Missing --rollup.machine.filename" ∈ (startup goodEnv c1Wit).1 := by
  have h := second_phase_reports_all_violations goodEnv c1Wit rfl (by decide)
  exact ⟨h.2.1 (by decide), h.2.2.1 (by decide)⟩

/-- C2 counterexample: the claim says every cancellation (including one
during a retry-executor wait) makes `startup` return no error.  With the
cancellation signal ready during the inbox retry wait, `startup` returns
the non-nil error "ctx cancelled StartInboxReader retry loop". -/
theorem cancellation_error_counterexample :
    (startup cancelEnv fwdCfg).2 =
      Outcome.ret (some "ctx cancelled StartInboxReader retry loop") ∧
    ¬ (startup cancelEnv fwdCfg).2 = Outcome.ret none := by
  refine ⟨by decide, by decide⟩

/-- C2 (amended): cancellation during the supervisor's terminal wait
produces a clean no-error return, but cancellation observed during a
retry-executor wait aborts `startup` with a non-nil cancellation error
naming the loop ("ctx cancelled StartInboxReader retry loop" for the
inbox loop, "ctx cancelled setup batcher" for the batcher loop). -/
theorem cancellation_termination (env : Env) (c : NodeConfig)
    (hcg : configGuardFails c = false) (hm : phase2Msgs c = [])
    (hpe : env.parseErr = none) (hpl : env.parseLogFlagsErr = none)
    (hmon : env.monitorErr = none) :
    ((inboxLoop env).2 = RetryResult.cancelled →
      (startup env c).2 =
        Outcome.ret (some "ctx cancelled StartInboxReader retry loop")) ∧
    ((inboxLoop env).2 = RetryResult.ok () →
      keystoreAndBalance env c = none → env.txdbErr = none →
      (batcherLoop env c).2 = RetryResult.cancelled →
      (startup env c).2 = Outcome.ret (some "ctx cancelled setup batcher")) ∧
    ((inboxLoop env).2 = RetryResult.ok () →
      keystoreAndBalance env c = none → env.txdbErr = none →
      (∃ b, (batcherLoop env c).2 = RetryResult.ok b) → env.web3Err = none →
      env.firstSignal = FirstSignal.cancel →
      (startup env c).2 = Outcome.ret none) := by
  have hp1 : phase1Fails env c = false := by
    unfold phase1Fails
    rw [hpe, hcg]
    rfl
  have hstart : startup env c = startupMain env (resolveConfig c) := by
    unfold startup
    rw [if_neg (by rw [hp1]; simp), if_pos hm]
  refine ⟨?_, ?_, ?_⟩
  · intro hib
    rw [hstart]
    unfold startupMain
    rw [hpl, hmon, hib]
  · intro hib hkb htx hbc
    have hkb2 : keystoreAndBalance env (resolveConfig c) = none := by
      rw [keystoreAndBalance_resolveConfig]
      exact hkb
    have hbc2 : (batcherLoop env (resolveConfig c)).2 = RetryResult.cancelled := by
      rw [batcherLoop_resolveConfig]
      exact hbc
    rw [hstart]
    unfold startupMain
    rw [hpl, hmon, hib, hkb2, htx, hbc2]
  · intro hib hkb htx hbc hw hsig
    obtain ⟨b, hbc⟩ := hbc
    have hkb2 : keystoreAndBalance env (resolveConfig c) = none := by
      rw [keystoreAndBalance_resolveConfig]
      exact hkb
    have hbc2 : (batcherLoop env (resolveConfig c)).2 = RetryResult.ok b := by
      rw [batcherLoop_resolveConfig]
      exact hbc
    rw [hstart]
    unfold startupMain
    rw [hpl, hmon, hib, hkb2, htx, hbc2, hw, hsig]
    rfl

/-- Witness for C2 (amended): a fully successful forwarder run whose
first terminal signal is cancellation returns no error. -/
theorem cancellation_termination_witness :
    (startup goodEnv fwdCfg).2 = Outcome.ret none :=
  (cancellation_termination goodEnv fwdCfg (by decide) (by decide) rfl rfl rfl).2.2
    (by decide) (by decide) rfl ⟨Batcher.plainBatcher, by decide⟩ rfl rfl

/-- C3: retry-executor semantics.  For a constructor failing on its
first `N` invocations and succeeding on invocation `N + 1`, the loop
makes exactly `N + 1` attempts (counted by `isInboxAttempt`), logs one
warning after each failure, waits the fixed 5-second interval between
consecutive attempts (the shape of `retryTraceUpTo`), and returns the
successful value; a cancellation result can only arise when the
cancellation signal was observed, and an `ok` result only from a
successful invocation. -/
theorem retry_executor_semantics (env : Env) (N : Nat)
    (hfail : ∀ i, i < N → ∃ e, env.inboxErr i = some e)
    (hsucc : env.inboxErr N = none)
    (hnc : ∀ i, i < N → env.inboxCancelAt i = false)
    (hfuel : N < env.fuel) :
    (inboxLoop env =
       (retryTraceUpTo (inboxCtor env) Ev.inboxWarn 0 N, RetryResult.ok ()) ∧
     (retryTraceUpTo (inboxCtor env) Ev.inboxWarn 0 N).countP isInboxAttempt = N + 1 ∧
     (retryTraceUpTo (inboxCtor env) Ev.inboxWarn 0 N).countP isInboxWarnEv = N ∧
     (retryTraceUpTo (inboxCtor env) Ev.inboxWarn 0 N).countP isWait5Ev = N) ∧
    (∀ fuel j, (retryLoop (inboxCtor env) Ev.inboxWarn env.inboxCancelAt fuel j).2 =
        RetryResult.cancelled → ∃ i, j ≤ i ∧ env.inboxCancelAt i = true) ∧
    (∀ fuel j v, (retryLoop (inboxCtor env) Ev.inboxWarn env.inboxCancelAt fuel j).2 =
        RetryResult.ok v → ∃ i, j ≤ i ∧ env.inboxErr i = none) := by
  refine ⟨⟨?_, (inboxTrace_counts env N 0).1, (inboxTrace_counts env N 0).2.1,
    (inboxTrace_counts env N 0).2.2⟩, ?_, ?_⟩
  · unfold inboxLoop
    exact retryLoop_eq_of_fail_then_ok (inboxCtor env) Ev.inboxWarn env.inboxCancelAt ()
      N env.fuel 0 hfuel
      (fun i hi => by
        obtain ⟨e, he⟩ := hfail i hi
        exact ⟨e, by simp [inboxCtor, Nat.zero_add, he]⟩)
      (by simp [inboxCtor, Nat.zero_add, hsucc])
      (fun i hi => by rw [Nat.zero_add]; exact hnc i hi)
  · exact fun fuel j h =>
      retryLoop_cancelled_exists (inboxCtor env) Ev.inboxWarn env.inboxCancelAt fuel j h
  · intro fuel j v h
    obtain ⟨i, hi, hok⟩ :=
      retryLoop_ok_exists (inboxCtor env) Ev.inboxWarn env.inboxCancelAt fuel j v h
    refine ⟨i, hi, ?_⟩
    unfold inboxCtor at hok
    cases he : env.inboxErr i with
    | none => rfl
    | some e =>
      rw [he] at hok
      exact Except.noConfusion hok

/-- Witness for C3: a constructor failing twice then succeeding makes
exactly three attempts, with one warning and one 5-second wait between
consecutive attempts, and returns the success. -/
theorem retry_executor_semantics_witness :
    inboxLoop retryEnv =
      ([Ev.inboxAttempt 0, Ev.inboxWarn, Ev.wait5, Ev.inboxAttempt 1, Ev.inboxWarn,
        Ev.wait5, Ev.inboxAttempt 2], RetryResult.ok ()) ∧
    (retryTraceUpTo (inboxCtor retryEnv) Ev.inboxWarn 0 2).countP isInboxWarnEv = 2 := by
  have h := retry_executor_semantics retryEnv 2
    (fun i hi => ⟨"dial tcp: connection refused", by simp [retryEnv, hi]⟩)
    (by decide) (fun i hi => rfl) (by decide)
  refine ⟨?_, h.1.2.2.1⟩
  rw [h.1.1]
  decide

/-- C4: when batcher construction succeeds but the lockout wrap fails,
the next retry attempt re-runs the entire construction.  Every attempt's
trace is `SetupBatcher` (`batcherAttempt i`) immediately followed by
`SetupLockout` (`lockoutAttempt i`), so in a run whose wrap fails `N`
times before succeeding, `SetupBatcher` is invoked again before every
retried `SetupLockout` — never the wrap step alone. -/
theorem lockout_wrap_full_retry (env : Env) (c : NodeConfig) (N : Nat)
    (hseq : c.nodeType = "sequencer") (hr : ¬ c.lockoutRedis = "")
    (hb : ∀ i, env.batcherErr i = none)
    (hlf : ∀ i, i < N → ∃ e, env.lockoutErr i = some e)
    (hls : env.lockoutErr N = none)
    (hnc : ∀ i, i < N → env.batcherCancelAt i = false)
    (hfuel : N < env.fuel) :
    (∀ i, (batcherCtor env c i).1 = [Ev.batcherAttempt i, Ev.lockoutAttempt i]) ∧
    batcherLoop env c =
      (retryTraceUpTo (batcherCtor env c) Ev.batcherWarn 0 N,
       RetryResult.ok Batcher.lockoutBatcher) := by
  have hct : ∀ i, batcherCtor env c i =
      ([Ev.batcherAttempt i, Ev.lockoutAttempt i],
       match env.lockoutErr i with
       | some e => Except.error e
       | none => Except.ok Batcher.lockoutBatcher) :=
    fun i => batcherCtor_seq_lockout env c i hseq hr (hb i)
  refine ⟨fun i => by rw [hct i], ?_⟩
  unfold batcherLoop
  exact retryLoop_eq_of_fail_then_ok (batcherCtor env c) Ev.batcherWarn env.batcherCancelAt
    Batcher.lockoutBatcher N env.fuel 0 hfuel
    (fun i hi => by
      obtain ⟨e, he⟩ := hlf i hi
      exact ⟨e, by rw [Nat.zero_add, hct i]; simp [he]⟩)
    (by rw [Nat.zero_add, hct N]; simp [hls])
    (fun i hi => by rw [Nat.zero_add]; exact hnc i hi)

/-- Witness for C4: with the wrap failing once then succeeding, the loop
trace re-invokes SetupBatcher (attempt 1) before the second
SetupLockout. -/
theorem lockout_wrap_full_retry_witness :
    batcherLoop lockEnv seqCfg =
      ([Ev.batcherAttempt 0, Ev.lockoutAttempt 0, Ev.batcherWarn, Ev.wait5,
        Ev.batcherAttempt 1, Ev.lockoutAttempt 1],
       RetryResult.ok Batcher.lockoutBatcher) := by
  have h := lockout_wrap_full_retry lockEnv seqCfg 1 (by decide) (by decide)
    (fun i => rfl)
    (fun i hi => ⟨"lockout: redis unreachable", by
      have h0 : i = 0 := by omega
      subst h0
      rfl⟩)
    (by decide) (fun i hi => rfl) (by decide)
  rw [h.2]
  decide

/-- C5: once running, the orchestrator's terminal wait blocks on the
three watched sources (txdb error channel, merged batcher/RPC error
channel, cancellation) and returns the value of whichever fires first:
the received error for either error channel and no error for
cancellation; the result depends only on that first signal, so anything
arriving afterwards is ignored. -/
theorem supervisor_first_signal (env : Env) (c : NodeConfig)
    (hcg : configGuardFails c = false) (hm : phase2Msgs c = [])
    (hpe : env.parseErr = none) (hpl : env.parseLogFlagsErr = none)
    (hmon : env.monitorErr = none)
    (hib : (inboxLoop env).2 = RetryResult.ok ())
    (hkb : keystoreAndBalance env c = none) (htx : env.txdbErr = none)
    (hbc : ∃ b, (batcherLoop env c).2 = RetryResult.ok b)
    (hw : env.web3Err = none) :
    (startup env c).2 = Outcome.ret (supervisorResult env.firstSignal) ∧
    supervisorResult FirstSignal.cancel = none ∧
    (∀ e, supervisorResult (FirstSignal.txdbFatal e) = some e) ∧
    (∀ e, supervisorResult (FirstSignal.mergedFatal e) = some e) := by
  obtain ⟨b, hbc⟩ := hbc
  have hp1 : phase1Fails env c = false := by
    unfold phase1Fails
    rw [hpe, hcg]
    rfl
  have hkb2 : keystoreAndBalance env (resolveConfig c) = none := by
    rw [keystoreAndBalance_resolveConfig]
    exact hkb
  have hbc2 : (batcherLoop env (resolveConfig c)).2 = RetryResult.ok b := by
    rw [batcherLoop_resolveConfig]
    exact hbc
  refine ⟨?_, rfl, fun e => rfl, fun e => rfl⟩
  unfold startup
  rw [if_neg (by rw [hp1]; simp), if_pos hm]
  unfold startupMain
  rw [hpl, hmon, hib, hkb2, htx, hbc2, hw]

/-- Witness for C5: when the txdb error channel fires first, startup
returns exactly that error. -/
theorem supervisor_first_signal_witness :
    (startup dbErrEnv fwdCfg).2 = Outcome.ret (some "txdb: database corrupted") := by
  have h := supervisor_first_signal dbErrEnv fwdCfg (by decide) (by decide) rfl rfl rfl
    (by decide) (by decide) rfl ⟨Batcher.plainBatcher, by decide⟩ rfl
  rw [h.1]
  rfl

/-- C8: for every sequencer configuration the catch-up flag is forced to
true and, once startup reaches the point after the database opens, the
catch-up wait is performed; for a non-sequencer role whose parsed flag
is unset (spec-modelled: `parsedWaitToCatchUp`), the flag stays unset
and no catch-up wait ever occurs. -/
theorem sequencer_catch_up_wait :
    (∀ c : NodeConfig, c.nodeType = "sequencer" →
        (resolveConfig c).waitToCatchUp = true) ∧
    (∀ env c, configGuardFails c = false → phase2Msgs c = [] →
        c.nodeType = "sequencer" →
        env.parseErr = none → env.parseLogFlagsErr = none → env.monitorErr = none →
        (inboxLoop env).2 = RetryResult.ok () →
        keystoreAndBalance env c = none → env.txdbErr = none →
        Ev.catchUpWait ∈ (startup env c).1) ∧
    (∀ env c, ¬ c.nodeType = "sequencer" → c.waitToCatchUp = parsedWaitToCatchUp →
        (resolveConfig c).waitToCatchUp = false ∧
        Ev.catchUpWait ∉ (startup env c).1) := by
  refine ⟨?_, ?_, ?_⟩
  · intro c hseq
    rw [resolveConfig_wait, if_pos hseq]
  · intro env c hcg hm hseq hpe hpl hmon hib hkb htx
    have hwt : (resolveConfig c).waitToCatchUp = true := by
      rw [resolveConfig_wait, if_pos hseq]
    have hp1 : phase1Fails env c = false := by
      unfold phase1Fails
      rw [hpe, hcg]
      rfl
    have hkb2 : keystoreAndBalance env (resolveConfig c) = none := by
      rw [keystoreAndBalance_resolveConfig]
      exact hkb
    unfold startup
    rw [if_neg (by rw [hp1]; simp), if_pos hm]
    unfold startupMain
    rw [hpl, hmon, hib, hkb2, htx]
    cases hbr : (batcherLoop env (resolveConfig c)).2 with
    | fuelOut => simp [hwt]
    | cancelled => simp [hwt]
    | ok b =>
      cases hw : env.web3Err with
      | some e => simp [hwt]
      | none => simp [hwt]
  · intro env c hseq hflag
    have hwf : (resolveConfig c).waitToCatchUp = false := by
      rw [resolveConfig_wait, if_neg hseq]
      exact hflag
    refine ⟨hwf, ?_⟩
    intro h
    rcases startup_mem_cases env c _ h with h | ⟨s, h⟩ | ⟨s, h⟩ | ⟨_, _, hin⟩
    · exact Ev.noConfusion h
    · exact Ev.noConfusion h
    · exact Ev.noConfusion h
    · rcases hin with h | h | h | ⟨_, h⟩ | h
      · exact Bool.noConfusion h
      · exact Bool.noConfusion h
      · exact Bool.noConfusion (batcherLoop_classify env c _ h)
      · rw [hwf] at h
        exact Bool.noConfusion h
      · exact Bool.noConfusion h

/-- Witness for C8: the sequencer run performs the catch-up wait, the
forwarder run (parsed flag unset) never does. -/
theorem sequencer_catch_up_wait_witness :
    Ev.catchUpWait ∈ (startup goodEnv seqCfg).1 ∧
    Ev.catchUpWait ∉ (startup goodEnv fwdCfg).1 :=
  ⟨sequencer_catch_up_wait.2.1 goodEnv seqCfg (by decide) (by decide) (by decide) rfl rfl
      rfl (by decide) (by decide) rfl,
   (sequencer_catch_up_wait.2.2 goodEnv fwdCfg (by decide) rfl).2⟩

end Claims

end ArbNode
